import Mathlib

/-!
Shallow embedding of the orchestration core of the `simple-ytb-downloader`
repository (files `src/app/ui.py`, `src/app/downloader_service.py`,
`src/app/planner.py`, `src/app/utils.py`, `src/app/config.py`) together with
theorems settling the specification claims about it.

Python floats are modelled by `ℚ`, Python ints by `ℤ` or `ℕ`, `None`-able
values by `Option`, and exceptions by explicit sum types.  The external
`yt_dlp` tool and the filesystem are modelled as oracles passed in as data:
their responses (metadata-probe results, progress-callback streams, attempt
outcomes) are parameters of the embedded functions.
-/

/-! ### Python-style helpers -/

/-- Truthiness of an optional Python string: `None` and `""` are falsy. -/
def pyTruthyStr (o : Option String) : Bool :=
  match o with
  | some s => s ≠ ""
  | none => false

/-- Python `a or b` for an optional string `a` with default `b`. -/
def pyOrStr (o : Option String) (d : String) : String :=
  match o with
  | some s => if s = "" then d else s
  | none => d

/-- Python `a or b` on two strings (`""` is falsy). -/
def pyOrStr2 (a b : String) : String :=
  if a = "" then b else a

/-- The test `pat` is a leading run of `l` (Python `startswith` on char lists). -/
def leadsWith : List Char → List Char → Bool
  | [], _ => true
  | _ :: _, [] => false
  | a :: as, b :: bs => a = b && leadsWith as bs

/-- Python `pat in s` substring test on char lists. -/
def occursIn (pat : List Char) : List Char → Bool
  | [] => leadsWith pat []
  | c :: rest => leadsWith pat (c :: rest) || occursIn pat rest

/-- Python `pat in s` substring test on strings. -/
def strOccursIn (pat s : String) : Bool :=
  occursIn pat.toList s.toList

/-- Python `s.lower()` over ASCII, written structurally on the character
list so that it evaluates by kernel reduction. -/
def pyLower (s : String) : String :=
  String.mk (s.toList.map Char.toLower)

/-- Python `s.startswith(pat)` on strings. -/
def strLeads (s pat : String) : Bool :=
  leadsWith pat.toList s.toList

/-- Python `int(x)` on a rational: truncation toward zero. -/
def pyInt (q : ℚ) : ℤ :=
  if q < 0 then -(Int.floor (-q)) else Int.floor q

/-! ### Overall-progress mapping (src/app/ui.py, `post_progress` inside
`_download_worker`, lines 413-423)

The worker installs a per-task closure `post_progress` that rewrites the
`value` of each item-local progress event into an overall percentage:
`overall = (((current_index - 1) + (item_pct / 100.0)) / max(1, current_total)) * 100.0`. -/

/-- Overall percent computed by `post_progress` from the 1-based
`current_index`, the batch `current_total` and the item-local percent. -/
def post_progress_overall (current_index current_total : ℕ) (item_pct : ℚ) : ℚ :=
  (((current_index : ℚ) - 1) + item_pct / 100) / max 1 (current_total : ℚ) * 100

/-- Overall percent posted after skipping a private item
(src/app/ui.py line 388): `(float(idx) / max(1, float(total))) * 100.0`. -/
def overall_after_skip (idx total : ℕ) : ℚ :=
  (idx : ℚ) / max 1 (total : ℚ) * 100

/-! ### Rate/ETA estimator (src/app/downloader_service.py, `hook`, lines 68-120)

`ctx.rate_samples` is a FIFO deque of `(timestamp, cumulative_bytes)` pairs,
modelled as a list with the front at the head. -/

/-- Window width `SPEED_SMOOTH_WINDOW_SEC = 5.0` (src/app/config.py line 5). -/
def SPEED_SMOOTH_WINDOW_SEC : ℚ := 5

/-- The eviction loop of `hook`:
`while ctx.rate_samples and (now - ctx.rate_samples[0][0]) > SPEED_SMOOTH_WINDOW_SEC:
ctx.rate_samples.popleft()`. -/
def evictFront (now : ℚ) : List (ℚ × ℤ) → List (ℚ × ℤ)
  | [] => []
  | (t, b) :: rest =>
    if now - t > SPEED_SMOOTH_WINDOW_SEC then evictFront now rest else (t, b) :: rest

/-- The sample-queue update of `hook`: append `(now, downloaded)` and then
run the eviction loop. -/
def updateSamples (samples : List (ℚ × ℤ)) (now : ℚ) (downloaded : ℤ) : List (ℚ × ℤ) :=
  evictFront now (samples ++ [(now, downloaded)])

/-- The smoothed throughput `avg_speed_bps` computed by `hook` from the
post-update queue: `0.0` with fewer than two samples, otherwise
`max(0, last_b - first_b) / max(0.001, last_t - first_t)`. -/
def avg_speed_bps : List (ℚ × ℤ) → ℚ
  | [] => 0
  | [_] => 0
  | (t1, b1) :: rest =>
    match rest.getLast? with
    | some (t2, b2) => ((max 0 (b2 - b1) : ℤ) : ℚ) / max (1/1000) (t2 - t1)
    | none => 0

/-- The reported speed `speed_bps = avg_speed_bps or float(raw_speed or 0)`:
the smoothed value when it is nonzero, else the tool's instantaneous
`d.get('speed')`, else `0`. -/
def speed_bps (samples : List (ℚ × ℤ)) (raw_speed : Option ℚ) : ℚ :=
  let avg := avg_speed_bps samples
  if avg ≠ 0 then avg else raw_speed.getD 0

/-- The ETA computed by `hook` (lines 91-94): `None` unless `total` is truthy
and the speed is positive, else `int(max(0, total - downloaded) / speed_bps)`. -/
def hook_eta (total downloaded : ℤ) (speed : ℚ) : Option ℤ :=
  if total ≠ 0 ∧ 0 < speed then
    some (pyInt (((max 0 (total - downloaded) : ℤ) : ℚ) / speed))
  else
    none

/-- The per-callback percent (line 74): `downloaded / total * 100` when
`total` is truthy, else `0`. -/
def hook_percent (total downloaded : ℤ) : ℚ :=
  if total ≠ 0 then (downloaded : ℚ) / (total : ℚ) * 100 else 0

/-- Spec-side smoothed throughput, written from the spec's words (§4.1):
`(lastBytes - firstBytes) / max(epsilon, lastTimestamp - firstTimestamp)`
over the samples remaining in the window, with no clamping of the byte
delta.  Used to compare the code's `avg_speed_bps` against the claim. -/
def spec_smoothed_speed (l : List (ℚ × ℤ)) : ℚ :=
  match l.head?, l.getLast? with
  | some (t1, b1), some (t2, b2) => ((b2 - b1 : ℤ) : ℚ) / max (1/1000) (t2 - t1)
  | _, _ => 0

/-! ### Filename sanitization (src/app/utils.py, `sanitize_filename`, lines 14-21) -/

/-- The characters of `INVALID_FS_CHARS = r"\\/:*?\"<>|"` (src/app/utils.py line 11). -/
def INVALID_FS_CHARS : List Char := ['\\', '/', ':', '*', '?', '"', '<', '>', '|']

/-- Python `\s` whitespace class over ASCII: space, tab, newline, return,
vertical tab, form feed. -/
def pyIsWs (c : Char) : Bool :=
  c = ' ' || c = '\t' || c = '\n' || c = '\x0d' || c = '\x0b' || c = '\x0c'

/-- Embedding of `re.sub(r"\s+", " ", name)`: replace every maximal run of
whitespace by a single space.  The flag records whether the previous
character was part of a whitespace run already rendered as one space. -/
def collapseWsAux (prevWs : Bool) : List Char → List Char
  | [] => []
  | c :: rest =>
    if pyIsWs c then
      if prevWs then collapseWsAux true rest
      else ' ' :: collapseWsAux true rest
    else c :: collapseWsAux false rest

/-- Top-level entry of the whitespace-run collapse. -/
def collapseWs (l : List Char) : List Char := collapseWsAux false l

/-- Python `str.strip()` on a char list. -/
def pyStrip (l : List Char) : List Char :=
  ((l.dropWhile pyIsWs).reverse.dropWhile pyIsWs).reverse

/-- Python `str.strip()` on strings. -/
def pyStripStr (s : String) : String :=
  String.mk (pyStrip s.toList)

/-- Embedding of `sanitize_filename`: `\r\n\t` to space, filesystem-invalid
characters to space, collapse whitespace runs, strip. -/
def sanitize_filename (s : String) : String :=
  if s = "" then ""
  else
    let mapped := s.toList.map fun c =>
      if c = '\x0d' ∨ c = '\n' ∨ c = '\t' then ' '
      else if c ∈ INVALID_FS_CHARS then ' ' else c
    String.mk (pyStrip (collapseWs mapped))

/-! ### Format selection (src/app/downloader_service.py, `select_format_string`,
lines 43-61, and the `merge_fmt` normalization of `download_single`,
lines 138-140) -/

/-- Per-task download configuration mirroring `DownloadContext.__init__`
(src/app/downloader_service.py lines 28-40).  `target_dir` and
`ffmpeg_path` are opaque strings here; `rate_samples` starts empty and
`fallback_counter` starts at `1`, exactly as in `__init__`. -/
structure DownloadContext where
  target_dir : String
  merge_format : String
  prefer_avc_for_mp4 : Bool
  resolution_label : String
  ffmpeg_path : Option String := none
  limit_fragment_concurrency : Bool := false
  audio_bitrate_kbps : Option ℤ := none
  rate_samples : List (ℚ × ℤ) := []
  fallback_counter : ℤ := 1
deriving DecidableEq

/-- Numeric value of a digit list. -/
def digitsVal (l : List Char) : ℕ :=
  l.foldl (fun acc c => acc * 10 + (c.toNat - '0'.toNat)) 0

/-- The height cap extracted in `select_format_string`:
`re.match(r"^(\d{3,4})", sel.strip())` takes the leading 3-or-4-digit run of
the stripped label; when that fails and the label starts with `auto`
(case-insensitively), the cap defaults to `1080`. -/
def capOfLabel (sel : String) : Option ℕ :=
  let ds := (pyStrip sel.toList).takeWhile Char.isDigit
  if 3 ≤ ds.length then some (digitsVal (ds.take 4))
  else if strLeads (pyLower sel) "auto" then some 1080
  else none

/-- Embedding of `select_format_string`. -/
def select_format_string (ctx : DownloadContext) : String :=
  let sel := ctx.resolution_label
  let merge_fmt := pyLower (pyOrStr2 ctx.merge_format "mkv")
  let cap_clause :=
    match capOfLabel sel with
    | some n =>
      let ns := toString n
      s!"[height<={ns}]"
    | none => ""
  if merge_fmt = "mp4" && ctx.prefer_avc_for_mp4 then
    s!"bestvideo{cap_clause}[vcodec^=avc1]+bestaudio[acodec^=mp4a]/best{cap_clause}[ext=mp4]"
  else
    s!"bestvideo{cap_clause}+bestaudio/best{cap_clause}"

/-- The `merge_fmt` normalization of `download_single` (lines 138-140):
`merge_fmt = (ctx.merge_format or "mkv").lower()`, then any value outside
`{"mkv", "mp4", "mp3"}` is replaced by `"mkv"`. -/
def effective_merge_fmt (merge_format : String) : String :=
  let m := pyLower (pyOrStr2 merge_format "mkv")
  if m = "mkv" ∨ m = "mp4" ∨ m = "mp3" then m else "mkv"

/-! ### Title resolution and fallback naming inside `download_single`
(src/app/downloader_service.py lines 124-136).  The metadata probe's
`info.get('title')` is a parameter (`info_title`). -/

/-- Embedding of lines 128-136 of `download_single`: prefer a truthy
`ctx_entry['entry_title']`, else the probed title; sanitize; when the result
is empty fall back to `"YouTube_Download_<fallback_counter>"` and increment
the counter.  Returns the chosen base title and the updated counter. -/
def resolve_safe_title (fallback_counter : ℤ) (entry_title info_title : Option String) :
    String × ℤ :=
  let title := if pyTruthyStr entry_title then entry_title else info_title
  let safe_title := if pyTruthyStr title then sanitize_filename (title.getD "") else ""
  if safe_title = "" then
    let c := fallback_counter
    (s!"YouTube_Download_{c}", fallback_counter + 1)
  else (safe_title, fallback_counter)

/-! ### Control flow of `download_single` (src/app/downloader_service.py,
lines 64-207)

The external tool is an oracle: each invocation of `ydl.download` is
described by an `AttemptEnv` giving the statuses of the progress callbacks
it fires and the outcome the tool itself produces when no callback raises.
The function body maps to: raise if `yt_dlp` is missing; run the metadata
probe (whose failure propagates, it is outside any `try`); run the primary
invocation with the selected format; on any exception run one fallback
invocation with format `"best"`, whose failure propagates. -/

/-- Errors surfaced by `download_single`: `RuntimeError` when `yt_dlp` is
missing (line 66), `CancelledDownloadError` raised by the hook (line 71),
or any other exception of the external tool. -/
inductive DlError
  | toolUnavailable
  | cancelled
  | other (msg : String)
deriving DecidableEq

/-- One invocation of the external tool: the list of progress callbacks it
fires (`true` = a `status == 'downloading'` record) and its own outcome. -/
structure AttemptEnv where
  callbacks : List Bool
  outcome : Except String Unit

/-- Run one tool invocation with the progress hook attached: the hook raises
`CancelledDownloadError` at the first `downloading` callback when
`is_cancelled()` holds (lines 70-71); otherwise the tool's own outcome
stands. -/
def runAttempt (is_cancelled : Bool) (env : AttemptEnv) : Except DlError Unit :=
  if is_cancelled && env.callbacks.any id then .error .cancelled
  else
    match env.outcome with
    | .ok _ => .ok ()
    | .error m => .error (.other m)

/-- Environment of one `download_single` call: availability of `yt_dlp`,
the result of the title probe (lines 125-127), and the two possible tool
invocations (primary, lines 198-199, and the `format='best'` retry,
lines 200-204). -/
structure DlEnv where
  ytdlp_available : Bool
  probe : Except String (Option String)
  primary : AttemptEnv
  fallback : AttemptEnv

/-- Control-flow skeleton of `download_single`: returns the overall result
together with the list of format selectors actually passed to the tool, in
invocation order. -/
def download_single_attempts (ctx : DownloadContext) (env : DlEnv) (is_cancelled : Bool) :
    Except DlError Unit × List String :=
  if ¬env.ytdlp_available then (.error .toolUnavailable, [])
  else
    match env.probe with
    | .error m => (.error (.other m), [])
    | .ok _ =>
      let fmt1 :=
        if effective_merge_fmt ctx.merge_format = "mp3" then "bestaudio/best"
        else select_format_string ctx
      match runAttempt is_cancelled env.primary with
      | .ok _ => (.ok (), [fmt1])
      | .error _ =>
        match runAttempt is_cancelled env.fallback with
        | .ok _ => (.ok (), [fmt1, "best"])
        | .error e => (.error e, [fmt1, "best"])

/-! ### Task planner (src/app/planner.py, `plan_downloads`, lines 21-59)

Each input URL comes paired with the oracle answer of its metadata probe
(`ydl.extract_info` under `extract_flat`): either an info dictionary or an
exception. -/

/-- One playlist entry of a probe result: the fields `url` and `title` read
by the planner. -/
structure PEntry where
  url : Option String
  title : Option String
deriving DecidableEq

/-- The fields of the probed info dictionary read by the planner:
`_type == "playlist"`, `title`, and `entries`. -/
structure ProbeInfo where
  isPlaylistType : Bool
  title : Option String
  entries : List PEntry
deriving DecidableEq

/-- Outcome of the planner's metadata probe for one URL. -/
inductive PlanProbe
  | ok (info : ProbeInfo)
  | err
deriving DecidableEq

/-- One planned task: the dictionary appended by `plan_downloads`, with
absent keys as `none`. -/
structure PlanTask where
  url : Option String
  pl_title : Option String := none
  pl_index : Option ℤ := none
  pl_count : Option ℤ := none
  entry_title : Option String := none
  pl_batch_index : Option ℤ := none
deriving DecidableEq

/-- The playlist-expansion inner loop (`for i, e in enumerate(entries, start=1)`),
appending one task per retained entry with 1-based position `i`. -/
def plTasks (plt : String) (pl_count batch : ℤ) : ℤ → List PEntry → List PlanTask
  | _, [] => []
  | i, e :: rest =>
    { url := e.url, pl_title := some plt, pl_index := some i, pl_count := some pl_count,
      entry_title := e.title, pl_batch_index := some batch } :: plTasks plt pl_count batch (i + 1) rest

/-- The planner's main loop over the input URLs, threading
`playlist_batch_index`. -/
def plan_downloads_go (expand_playlist : Bool) (batch : ℤ) :
    List (String × PlanProbe) → List PlanTask
  | [] => []
  | (u, pr) :: rest =>
    if ¬expand_playlist then { url := some u } :: plan_downloads_go expand_playlist batch rest
    else
      match pr with
      | .err => { url := some u } :: plan_downloads_go expand_playlist batch rest
      | .ok info =>
        if info.isPlaylistType && !info.entries.isEmpty then
          let entries := info.entries.filter fun e => pyTruthyStr e.url
          let plt := sanitize_filename (pyOrStr info.title "Playlist")
          plTasks plt (entries.length : ℤ) (batch + 1) 1 entries
            ++ plan_downloads_go expand_playlist (batch + 1) rest
        else { url := some u } :: plan_downloads_go expand_playlist batch rest

/-- Embedding of `plan_downloads`: when the `yt_dlp` import fails the whole
list degrades to bare URL tasks (lines 29-30), otherwise the main loop
runs with `playlist_batch_index = 0`. -/
def plan_downloads (inputs : List (String × PlanProbe)) (expand_playlist : Bool)
    (ytdlp_available : Bool) : List PlanTask :=
  if ¬ytdlp_available then inputs.map fun p => { url := some p.1 }
  else plan_downloads_go expand_playlist 0 inputs

/-! ### Batch orchestrator (src/app/ui.py, `_download_worker`, lines 324-441)

Events posted to `self.progress_q` are modelled by the tagged type `Ev`;
fields of progress dictionaries other than `type`, `value`/`text` and
`which` are carried by the download-run oracle.  The behavior of one
`download_single` call made by the worker is abstracted by `DlRun`: the
item-local percent/text pairs it posts followed by how it terminates. -/

/-- Progress-channel events as read by `process_progress_queue`. -/
inductive Ev
  | label (which text : String)
  | status (text : String)
  | progress (value : ℚ) (text : String)
  | done
deriving DecidableEq

/-- Observable behavior of one `download_single` call inside the worker:
item-local progress events followed by normal return with the saved path,
a `CancelledDownloadError`, or any other exception. -/
inductive DlRun
  | ok (percents : List (ℚ × String)) (path : String)
  | cancelledMid (percents : List (ℚ × String))
  | failedMid (percents : List (ℚ × String)) (msg : String)
deriving DecidableEq

/-- Worker-side oracle for one task: the worker's own title probe
(lines 351-362) and the behavior of the `download_single` call. -/
structure WEnv where
  probe : Except String (Option String)
  run : DlRun

/-- The overall-items label text posted before each task (line 336). -/
def total_items_label (idx total : ℕ) : String :=
  s!"Total items {idx} / {total}"

/-- The overall-items label text posted before the loop, with the current
index still unknown (line 330). -/
def total_items_unknown_label (total : ℕ) : String :=
  s!"Total items ? / {total}"

/-- The skip status text for a private item (lines 382-385). -/
def skip_status_text (idx total : ℕ) (title : Option String) : String :=
  let ttl := pyOrStr title "Unknown"
  s!"Skipping item {idx} / {total} - private video: {ttl}"

/-- The check `isinstance(pl_index, int) and isinstance(pl_count, int) and
pl_count > 0` (line 341). -/
def is_playlist_task (t : PlanTask) : Bool :=
  t.pl_index.isSome &&
    (match t.pl_count with
     | some c => 0 < c
     | none => false)

/-- Title resolution of the worker (lines 348-362): keep a truthy
`entry_title`; otherwise probe, take `info.get('title') or title`, and on a
probe exception record whether its message contains `"Private video"`. -/
def worker_title (t : PlanTask) (probe : Except String (Option String)) :
    Option String × Bool :=
  if pyTruthyStr t.entry_title then (t.entry_title, false)
  else
    match probe with
    | .ok info_title => (if pyTruthyStr info_title then info_title else t.entry_title, false)
    | .error m => (t.entry_title, strOccursIn "Private video" m)

/-- The title-marker test (lines 365-367): the stripped title lowercases to
something starting with `"[private video]"` or equal to `"private video"`. -/
def private_marker (title : Option String) : Bool :=
  let ts := pyLower (pyStripStr (pyOrStr title ""))
  strLeads ts "[private video]" || ts = "private video"

/-- Combined private detection for one worker iteration. -/
def worker_private_detected (t : PlanTask) (probe : Except String (Option String)) : Bool :=
  (worker_title t probe).2 || private_marker (worker_title t probe).1

/-- The per-item label text built at lines 370-374. -/
def file_label (idx total : ℕ) (t : PlanTask) (title : Option String) : String :=
  if is_playlist_task t then
    let plt := pyOrStr t.pl_title "Playlist"
    let i := t.pl_index.getD 0
    let c := t.pl_count.getD 0
    let ttl := pyOrStr title ""
    s!"Playlist [{plt}] - Item {i} of {c}: {ttl}"
  else
    let ttl := pyOrStr title ""
    s!"YouTube Video {idx} of {total}: {ttl}"

/-- Events posted through the `post_progress` closure for the item-local
progress stream of one `download_single` call: the `value` field is rewritten
to the overall percentage, the text is forwarded. -/
def mapped_progress_events (idx total : ℕ) (ps : List (ℚ × String)) : List Ev :=
  ps.map fun p => .progress (post_progress_overall idx total p.1) p.2

/-- Events produced by one `download_single` call as seen on the queue:
`post_progress` additionally turns a `"Saved to:"` status into a
`saved_to` label followed by the status itself (lines 424-429). -/
def dl_events (idx total : ℕ) : DlRun → List Ev
  | .ok ps path =>
    let st := "Saved to: " ++ path
    mapped_progress_events idx total ps ++ [.label "saved_to" st, .status st]
  | .cancelledMid ps => mapped_progress_events idx total ps
  | .failedMid ps _ => mapped_progress_events idx total ps

/-- How one loop iteration ends: fall through to the next task, or raise
out of the loop (`CancelledDownloadError` or any other exception). -/
inductive TaskExit
  | next
  | raiseCancelled
  | raiseFailed (msg : String)
deriving DecidableEq

/-- One non-cancelled iteration of the worker loop (lines 336-431): the
overall label, the two per-item labels, then either the private skip
(status + advanced overall progress, `continue`) or the events of the
`download_single` call. -/
def iter_step (idx total : ℕ) (t : PlanTask) (env : WEnv) : List Ev × TaskExit :=
  let ov := Ev.label "overall" (total_items_label idx total)
  let title := (worker_title t env.probe).1
  let priv := worker_private_detected t env.probe
  let fl := file_label idx total t title
  let hdr := [ov, Ev.label "file" fl, Ev.label "current_item" fl]
  if priv then
    (hdr ++ [Ev.status (skip_status_text idx total title),
      Ev.progress (overall_after_skip idx total) ""], .next)
  else
    match env.run with
    | .ok ps path => (hdr ++ dl_events idx total (.ok ps path), .next)
    | .cancelledMid ps => (hdr ++ dl_events idx total (.cancelledMid ps), .raiseCancelled)
    | .failedMid ps m => (hdr ++ dl_events idx total (.failedMid ps m), .raiseFailed m)

/-- How the `try` block of `_download_worker` ends: the loop ran to its end
or was left by `break` (both fall through to the `"All done"` status at
line 432), or an exception reached one of the `except` clauses. -/
inductive WExit
  | completed
  | exCancelled
  | exFailed (msg : String)
deriving DecidableEq

/-- The worker loop (lines 331-431).  `cancel idx` is the value of
`self.cancel_event.is_set()` at the boundary check before the `idx`-th task.
A set flag posts `Status{"Cancelled"}` and leaves the loop by `break` —
control then still reaches the `"All done"` line, hence `.completed`. -/
def run_loop (total : ℕ) (cancel : ℕ → Bool) : ℕ → List (PlanTask × WEnv) → List Ev × WExit
  | _, [] => ([], .completed)
  | idx, te :: rest =>
    if cancel idx then ([Ev.status "Cancelled"], .completed)
    else
      match iter_step idx total te.1 te.2 with
      | (evs, .next) =>
        let r := run_loop total cancel (idx + 1) rest
        (evs ++ r.1, r.2)
      | (evs, .raiseCancelled) => (evs, .exCancelled)
      | (evs, .raiseFailed m) => (evs, .exFailed m)

/-- The full event trace of `_download_worker` for one batch run: the initial
overall label when the plan is non-empty (lines 329-330), the loop events, the
terminal status of the `try`/`except` clauses (lines 432-439), and the
`Done` event of the `finally` clause (lines 440-441). -/
def download_worker (tasks : List (PlanTask × WEnv)) (cancel : ℕ → Bool) : List Ev :=
  let total := tasks.length
  let pre := if total ≠ 0 then [Ev.label "overall" (total_items_unknown_label total)] else []
  let r := run_loop total cancel 1 tasks
  let tail :=
    match r.2 with
    | .completed => [Ev.status "All done"]
    | .exCancelled => [Ev.status "Cancelled"]
    | .exFailed m => [Ev.status ("Error: " ++ m)]
  pre ++ r.1 ++ tail ++ [Ev.done]

/-- The per-task construction of the download context by the worker
(src/app/ui.py lines 402-410): `DownloadContext(...)` is called afresh inside
the loop for every task, with no counter or sample-queue argument, so
`rate_samples` and `fallback_counter` take the `__init__` values `[]` and
`1` on every task. -/
def worker_dl_ctx (target_dir merge_format : String) (prefer_avc_for_mp4 : Bool)
    (resolution_label : String) (ffmpeg_path : Option String)
    (limit_fragment_concurrency : Bool) (audio_bitrate_kbps : Option ℤ) : DownloadContext :=
  { target_dir := target_dir, merge_format := merge_format,
    prefer_avc_for_mp4 := prefer_avc_for_mp4, resolution_label := resolution_label,
    ffmpeg_path := ffmpeg_path, limit_fragment_concurrency := limit_fragment_concurrency,
    audio_bitrate_kbps := audio_bitrate_kbps }

/-! ### Claim theorems -/

/-- C1: for every batch with `total >= 1` tasks, every 1-based
`currentIndex <= total` and every item-local percent `p ∈ [0, 100]`, the
overall percent posted by the orchestrator equals
`100 * ((currentIndex - 1) + p/100) / total`; it is monotonically
non-decreasing in `p`, successive tasks start where the previous one ended,
and it equals exactly `100` only when `currentIndex = total` and `p = 100`. -/
theorem C1_overall_progress_mapping (i total : ℕ) (p : ℚ)
    (htot : 1 ≤ total) (hi1 : 1 ≤ i) (hit : i ≤ total)
    (hp0 : 0 ≤ p) (hp1 : p ≤ 100) :
    post_progress_overall i total p = 100 * (((i : ℚ) - 1) + p / 100) / total
    ∧ (∀ q : ℚ, p ≤ q → post_progress_overall i total p ≤ post_progress_overall i total q)
    ∧ post_progress_overall i total 100 = post_progress_overall (i + 1) total 0
    ∧ (post_progress_overall i total p = 100 ↔ i = total ∧ p = 100) := by
  have htQ : (1 : ℚ) ≤ (total : ℚ) := by exact_mod_cast htot
  have htpos : (0 : ℚ) < (total : ℚ) := lt_of_lt_of_le one_pos htQ
  have hmax : max 1 (total : ℚ) = (total : ℚ) := max_eq_right htQ
  have hiQ : (i : ℚ) ≤ (total : ℚ) := by exact_mod_cast hit
  have hi1Q : (1 : ℚ) ≤ (i : ℚ) := by exact_mod_cast hi1
  refine ⟨?_, ?_, ?_, ?_⟩
  · unfold post_progress_overall
    rw [hmax]; ring
  · intro q hq
    unfold post_progress_overall
    rw [hmax]
    gcongr
  · unfold post_progress_overall
    rw [hmax]
    push_cast
    ring
  · unfold post_progress_overall
    rw [hmax]
    constructor
    · intro h
      have hx : (i : ℚ) - 1 + p / 100 = (total : ℚ) := by
        field_simp at h
        linarith
      have hip : (i : ℚ) = (total : ℚ) := by
        have h100 : p / 100 ≤ 1 := by linarith [(div_le_one (by norm_num : (0:ℚ) < 100)).2 hp1]
        have : (total : ℚ) ≤ (i : ℚ) := by linarith
        linarith
      have hieq : i = total := by exact_mod_cast hip
      refine ⟨hieq, ?_⟩
      have hp100 : p / 100 = 1 := by rw [hip] at hx; linarith
      field_simp at hp100
      exact hp100
    · rintro ⟨rfl, rfl⟩
      field_simp

/-- C1 witness: the mapping evaluated at `currentIndex = 1`, `total = 2`,
`p = 50` gives `25`, matching the closed formula. -/
theorem C1_overall_progress_mapping_witness :
    post_progress_overall 1 2 50 = 100 * (((1 : ℚ) - 1) + 50 / 100) / 2 :=
  (C1_overall_progress_mapping 1 2 50 (by norm_num) (by norm_num) (by norm_num)
    (by norm_num) (by norm_num)).1

/-- C6: the reported ETA is present iff the total byte count is known
(nonzero) and the speed is strictly positive, in which case it equals
`floor((totalBytes - downloadedBytes) / speed)` clamped to `≥ 0`; with
`speedBps = 500` and `remainingBytes = 1000` it is `2`; with zero speed it
is absent, never zero. -/
theorem C6_eta_presence_and_value :
    (∀ total downloaded : ℤ, ∀ speed : ℚ,
      hook_eta total downloaded speed =
        if total ≠ 0 ∧ 0 < speed then
          some (max 0 (Int.floor (((total : ℚ) - (downloaded : ℚ)) / speed)))
        else none)
    ∧ hook_eta 1500 500 500 = some 2
    ∧ (∀ total downloaded : ℤ, hook_eta total downloaded 0 = none) := by
  refine ⟨?_, ?_, ?_⟩
  · intro t d s
    unfold hook_eta
    by_cases h : t ≠ 0 ∧ 0 < s
    · rw [if_pos h, if_pos h]
      obtain ⟨ht, hs⟩ := h
      congr 1
      rcases le_or_lt d t with hdt | htd
      · have hmax : max 0 (t - d) = t - d := max_eq_right (by omega)
        rw [hmax]
        have hq0 : (0 : ℚ) ≤ ((t - d : ℤ) : ℚ) / s := by
          apply div_nonneg _ hs.le
          exact_mod_cast sub_nonneg.mpr hdt
        rw [pyInt, if_neg (not_lt.mpr hq0)]
        have hfl : 0 ≤ Int.floor (((t : ℚ) - (d : ℚ)) / s) := by
          rw [Int.floor_nonneg]
          convert hq0 using 2
          push_cast
          ring
        rw [max_eq_right hfl]
        congr 2
        push_cast
        ring
      · have hmax : max 0 (t - d) = 0 := max_eq_left (by omega)
        rw [hmax]
        have hq : ((t : ℚ) - (d : ℚ)) / s ≤ 0 := by
          apply div_nonpos_of_nonpos_of_nonneg _ hs.le
          have : (t : ℚ) < (d : ℚ) := by exact_mod_cast htd
          linarith
        have hfl : Int.floor (((t : ℚ) - (d : ℚ)) / s) ≤ 0 := Int.floor_nonpos hq
        rw [max_eq_left hfl]
        norm_num [pyInt]
    · rw [if_neg h, if_neg h]
  · norm_num [hook_eta, pyInt]
  · intro t d
    simp [hook_eta]

/-- Helper: on a queue whose timestamps are sorted (FIFO order), the front
eviction loop removes exactly the samples older than the window. -/
theorem evictFront_eq_filter (now : ℚ) (l : List (ℚ × ℤ))
    (hsort : l.Pairwise fun a b => a.1 ≤ b.1) :
    evictFront now l = l.filter fun x => decide (now - x.1 ≤ SPEED_SMOOTH_WINDOW_SEC) := by
  induction l with
  | nil => rfl
  | cons hd tl ih =>
    obtain ⟨hhd, htl⟩ := List.pairwise_cons.mp hsort
    obtain ⟨t, b⟩ := hd
    by_cases h : now - t > SPEED_SMOOTH_WINDOW_SEC
    · rw [evictFront, if_pos h, ih htl, List.filter_cons]
      have : ¬(now - t ≤ SPEED_SMOOTH_WINDOW_SEC) := not_le.mpr h
      simp [this]
    · rw [evictFront, if_neg h, List.filter_cons]
      have hle : now - t ≤ SPEED_SMOOTH_WINDOW_SEC := not_lt.mp h
      have htl_all : ∀ x ∈ tl, (fun x => decide (now - x.1 ≤ SPEED_SMOOTH_WINDOW_SEC)) x = true := by
        intro x hx
        have := hhd x hx
        simp only [decide_eq_true_eq]
        linarith
      rw [List.filter_eq_self.mpr htl_all, if_pos (by simpa using hle)]

/-- Helper: with at least two samples and non-decreasing byte counts, the
code's clamped average equals the spec's unclamped formula. -/
theorem avg_speed_eq_spec (l : List (ℚ × ℤ))
    (hmono : l.Pairwise fun a b => a.2 ≤ b.2) (hlen : 2 ≤ l.length) :
    avg_speed_bps l = spec_smoothed_speed l := by
  match l, hlen with
  | (t1, b1) :: c :: cs, _ =>
    have hne : (c :: cs : List (ℚ × ℤ)) ≠ [] := List.cons_ne_nil _ _
    rcases hg : (c :: cs).getLast? with _ | p
    · rw [List.getLast?_eq_getLast_of_ne_nil hne] at hg
      exact absurd hg (by simp)
    · obtain ⟨t2, b2⟩ := p
      have hmem : (t2, b2) ∈ (c :: cs) := by
        rw [List.getLast?_eq_getLast_of_ne_nil hne] at hg
        exact Option.some.inj hg ▸ List.getLast_mem hne
      have hb : b1 ≤ b2 := (List.pairwise_cons.mp hmono).1 _ hmem
      simp only [avg_speed_bps, spec_smoothed_speed, hg, List.head?_cons,
        List.getLast?_cons_cons]
      rw [max_eq_right (by omega : (0 : ℤ) ≤ b2 - b1)]

/-- C4 (amended): the estimator appends `(now, downloadedBytes)` and evicts
from the front exactly the samples older than `W = 5` seconds; with at least
two samples remaining and a nonzero windowed value, the reported speed equals
`(lastBytes - firstBytes) / max(0.001, lastTimestamp - firstTimestamp)`;
when the windowed value is zero, or fewer than two samples remain, it falls
back to the tool's instantaneous speed, or `0` if unavailable. -/
theorem C4_estimator_amended (samples : List (ℚ × ℤ)) (now : ℚ) (downloaded : ℤ)
    (raw : Option ℚ)
    (hsortT : samples.Pairwise fun a b => a.1 ≤ b.1)
    (hnow : ∀ x ∈ samples, x.1 ≤ now)
    (hmono : samples.Pairwise fun a b => a.2 ≤ b.2)
    (hlast : ∀ x ∈ samples, x.2 ≤ downloaded) :
    updateSamples samples now downloaded =
      (samples ++ [(now, downloaded)]).filter (fun x => decide (now - x.1 ≤ SPEED_SMOOTH_WINDOW_SEC))
    ∧ (2 ≤ (updateSamples samples now downloaded).length →
        spec_smoothed_speed (updateSamples samples now downloaded) ≠ 0 →
        speed_bps (updateSamples samples now downloaded) raw =
          spec_smoothed_speed (updateSamples samples now downloaded))
    ∧ (2 ≤ (updateSamples samples now downloaded).length →
        spec_smoothed_speed (updateSamples samples now downloaded) = 0 →
        speed_bps (updateSamples samples now downloaded) raw = raw.getD 0)
    ∧ ((updateSamples samples now downloaded).length < 2 →
        speed_bps (updateSamples samples now downloaded) raw = raw.getD 0) := by
  have happs : (samples ++ [(now, downloaded)]).Pairwise fun a b => a.1 ≤ b.1 := by
    rw [List.pairwise_append]
    refine ⟨hsortT, List.pairwise_singleton _ _, ?_⟩
    intro a ha b hb
    have hb1 : b = (now, downloaded) := by simpa using hb
    rw [hb1]
    exact hnow a ha
  have hfilter : updateSamples samples now downloaded =
      (samples ++ [(now, downloaded)]).filter
        (fun x => decide (now - x.1 ≤ SPEED_SMOOTH_WINDOW_SEC)) := by
    rw [updateSamples]
    exact evictFront_eq_filter now _ happs
  have happm : (samples ++ [(now, downloaded)]).Pairwise fun a b => a.2 ≤ b.2 := by
    rw [List.pairwise_append]
    refine ⟨hmono, List.pairwise_singleton _ _, ?_⟩
    intro a ha b hb
    have hb1 : b = (now, downloaded) := by simpa using hb
    rw [hb1]
    exact hlast a ha
  have hmono' : (updateSamples samples now downloaded).Pairwise fun a b => a.2 ≤ b.2 := by
    rw [hfilter]
    exact List.Pairwise.sublist (List.filter_sublist _) happm
  refine ⟨hfilter, ?_, ?_, ?_⟩
  · intro h2 hne
    have havg := avg_speed_eq_spec _ hmono' h2
    simp only [speed_bps]
    rw [havg, if_pos hne]
  · intro h2 hzero
    have havg := avg_speed_eq_spec _ hmono' h2
    simp only [speed_bps]
    rw [havg, hzero]
    simp
  · intro hlt
    have havg : avg_speed_bps (updateSamples samples now downloaded) = 0 := by
      rcases hl : updateSamples samples now downloaded with _ | ⟨a, _ | ⟨b, t⟩⟩
      · rfl
      · rfl
      · rw [hl] at hlt
        simp at hlt
        omega
    simp only [speed_bps]
    rw [havg]
    simp

/-- C4 witness: one prior sample `(0, 50)` and a callback at time `1` with
`150` cumulative bytes leave two samples in the window with a nonzero
windowed speed, so the reported speed equals the windowed formula. -/
theorem C4_estimator_amended_witness :
    speed_bps (updateSamples [((0 : ℚ), (50 : ℤ))] 1 150) none =
      spec_smoothed_speed (updateSamples [((0 : ℚ), (50 : ℤ))] 1 150) := by
  have hupd : updateSamples [((0 : ℚ), (50 : ℤ))] 1 150 = [(0, 50), (1, 150)] := by
    norm_num [updateSamples, evictFront, SPEED_SMOOTH_WINDOW_SEC]
  exact (C4_estimator_amended [((0 : ℚ), (50 : ℤ))] 1 150 none
      (List.pairwise_singleton _ _) (by norm_num) (List.pairwise_singleton _ _)
      (by norm_num)).2.1
    (by rw [hupd]; norm_num)
    (by rw [hupd]; norm_num [spec_smoothed_speed])

/-- C4 counterexample: two samples in the window with equal byte counts (a
monotonically non-decreasing stream) and tool speed `500`: the claim's
formula gives `0`, but the code reports `500`. -/
theorem C4_counterexample :
    2 ≤ (updateSamples [((0 : ℚ), (100 : ℤ))] 1 100).length
    ∧ spec_smoothed_speed (updateSamples [((0 : ℚ), (100 : ℤ))] 1 100) = 0
    ∧ speed_bps (updateSamples [((0 : ℚ), (100 : ℤ))] 1 100) (some 500) = 500
    ∧ speed_bps (updateSamples [((0 : ℚ), (100 : ℤ))] 1 100) (some 500) ≠
        spec_smoothed_speed (updateSamples [((0 : ℚ), (100 : ℤ))] 1 100) := by
  have hupd : updateSamples [((0 : ℚ), (100 : ℤ))] 1 100 = [(0, 100), (1, 100)] := by
    norm_num [updateSamples, evictFront, SPEED_SMOOTH_WINDOW_SEC]
  rw [hupd]
  norm_num [spec_smoothed_speed, speed_bps, avg_speed_bps]

/-- C10: `download_single` is total in the container format: any
`merge_format` whose lowercasing is not `mkv`, `mp4` or `mp3` (the empty
string included) is normalized to `mkv`, and format selection behaves
exactly as for `mkv`. -/
theorem C10_merge_format_total (s : String)
    (h : pyLower s ≠ "mkv" ∧ pyLower s ≠ "mp4" ∧ pyLower s ≠ "mp3") :
    effective_merge_fmt s = "mkv"
    ∧ ∀ ctx : DownloadContext, ctx.merge_format = s →
        select_format_string ctx = select_format_string { ctx with merge_format := "mkv" } := by
  by_cases hs : s = ""
  · subst hs
    refine ⟨by decide, ?_⟩
    intro ctx hctx
    have hm : pyLower (pyOrStr2 "" "mkv") = pyLower (pyOrStr2 "mkv" "mkv") := by decide
    simp only [select_format_string, hctx, hm]
  · constructor
    · unfold effective_merge_fmt
      simp only [pyOrStr2, if_neg hs]
      rw [if_neg]
      rintro (h1 | h2 | h3)
      · exact h.1 h1
      · exact h.2.1 h2
      · exact h.2.2 h3
    · intro ctx hctx
      have h1 : (pyLower (pyOrStr2 s "mkv") = "mp4") = False := by
        simp only [pyOrStr2, if_neg hs]
        exact eq_false h.2.1
      have h2 : (pyLower (pyOrStr2 "mkv" "mkv") = "mp4") = False := by
        simp only [eq_iff_iff, iff_false]
        decide
      simp only [select_format_string, hctx, h1, h2]

/-- C10 witness: the unsupported container label `"avi"` is handled exactly
as `"mkv"`, with identical format selection. -/
theorem C10_merge_format_total_witness :
    effective_merge_fmt "avi" = "mkv"
    ∧ select_format_string ⟨"/tmp", "avi", false, "Auto (Best)", none, false, none, [], 1⟩ =
        select_format_string ⟨"/tmp", "mkv", false, "Auto (Best)", none, false, none, [], 1⟩ := by
  have h := C10_merge_format_total "avi" (by decide)
  exact ⟨h.1, h.2 _ rfl⟩

/-- C5 (amended): `download_single` fails with the tool-unavailable error
when `yt_dlp` is missing; when the primary invocation fails for any reason —
the `except Exception:` at src/app/downloader_service.py line 200 catches
the hook's `CancelledDownloadError` too — it retries exactly once, with
format selector `"best"`, and surfaces the retry's result; it never makes
more than two invocations; consequently cancellation observed at a progress
callback surfaces as the cancellation error when the retry invocation also
reaches a progress callback of an active transfer (the cancel flag stays
set), which is the second conjunct's extra hypothesis. -/
theorem C5_download_single_errors_and_retry (ctx : DownloadContext) (env : DlEnv) (c : Bool) :
    (env.ytdlp_available = false →
      download_single_attempts ctx env c = (.error .toolUnavailable, []))
    ∧ (env.ytdlp_available = true → (∃ t, env.probe = .ok t) →
        c = true → env.primary.callbacks.any id = true →
        env.fallback.callbacks.any id = true →
        (download_single_attempts ctx env c).1 = .error .cancelled)
    ∧ (env.ytdlp_available = true → (∃ t, env.probe = .ok t) →
        (∃ e, runAttempt c env.primary = .error e) →
        download_single_attempts ctx env c =
          (runAttempt c env.fallback,
           [if effective_merge_fmt ctx.merge_format = "mp3" then "bestaudio/best"
            else select_format_string ctx, "best"]))
    ∧ (download_single_attempts ctx env c).2.length ≤ 2 := by
  refine ⟨?_, ?_, ?_, ?_⟩
  · intro hav
    simp [download_single_attempts, hav]
  · rintro hav ⟨t, hp⟩ hc h1 h2
    subst hc
    have hpr : runAttempt true env.primary = .error .cancelled := by
      unfold runAttempt
      rw [h1]
      simp
    have hfb : runAttempt true env.fallback = .error .cancelled := by
      unfold runAttempt
      rw [h2]
      simp
    simp [download_single_attempts, hav, hp, hpr, hfb]
  · rintro hav ⟨t, hp⟩ ⟨e, he⟩
    cases hf : runAttempt c env.fallback with
    | ok u => simp [download_single_attempts, hav, hp, he, hf]
    | error e2 => simp [download_single_attempts, hav, hp, he, hf]
  · cases hav : env.ytdlp_available with
    | false => simp [download_single_attempts, hav]
    | true =>
      cases hp : env.probe with
      | error m => simp [download_single_attempts, hav, hp]
      | ok t =>
        cases hpr : runAttempt c env.primary with
        | ok u => simp [download_single_attempts, hav, hp, hpr]
        | error e =>
          cases hfb : runAttempt c env.fallback with
          | ok u => simp [download_single_attempts, hav, hp, hpr, hfb]
          | error e2 => simp [download_single_attempts, hav, hp, hpr, hfb]

/-- C5 witness: a failing primary invocation followed by a succeeding
`"best"` retry produces exactly two invocations and the retry's success. -/
theorem C5_download_single_errors_and_retry_witness :
    download_single_attempts ⟨"/tmp", "mkv", false, "Auto (Best)", none, false, none, [], 1⟩
        ⟨true, .ok none, ⟨[], .error "boom"⟩, ⟨[], .ok ()⟩⟩ false =
      (.ok (),
       [select_format_string ⟨"/tmp", "mkv", false, "Auto (Best)", none, false, none, [], 1⟩,
        "best"]) := by
  have h := (C5_download_single_errors_and_retry
      ⟨"/tmp", "mkv", false, "Auto (Best)", none, false, none, [], 1⟩
      ⟨true, .ok none, ⟨[], .error "boom"⟩, ⟨[], .ok ()⟩⟩ false).2.2.1
    rfl ⟨none, rfl⟩ ⟨DlError.other "boom", rfl⟩
  rw [h]
  rfl

/-- C5 counterexample: cancellation is observed at a `downloading` callback
during the active primary transfer (the hook raises the cancellation error
there), yet the call does not fail with the cancellation error: the
catch-all retry runs, and when the retry finishes without reaching a
`downloading` callback the call returns success — and when the retry fails
for an unrelated reason, that other error is surfaced instead.  The retry
is launched by the cancellation itself, not by "any other reason". -/
theorem C5_counterexample :
    runAttempt true ⟨[true], .ok ()⟩ = .error .cancelled
    ∧ (download_single_attempts ⟨"/tmp", "mkv", false, "Auto (Best)", none, false, none, [], 1⟩
        ⟨true, .ok none, ⟨[true], .ok ()⟩, ⟨[], .ok ()⟩⟩ true).1 = .ok ()
    ∧ (download_single_attempts ⟨"/tmp", "mkv", false, "Auto (Best)", none, false, none, [], 1⟩
        ⟨true, .ok none, ⟨[true], .ok ()⟩, ⟨[], .ok ()⟩⟩ true).2 =
      [select_format_string ⟨"/tmp", "mkv", false, "Auto (Best)", none, false, none, [], 1⟩,
       "best"]
    ∧ (download_single_attempts ⟨"/tmp", "mkv", false, "Auto (Best)", none, false, none, [], 1⟩
        ⟨true, .ok none, ⟨[true], .ok ()⟩, ⟨[], .error "DNS failure"⟩⟩ true).1 =
      .error (.other "DNS failure") :=
  ⟨rfl, rfl, rfl, rfl⟩

/-- C9: with playlist expansion off the planner returns exactly one bare
task per input URL, in input order, with no playlist metadata; and with
expansion on, a URL whose probe fails contributes exactly one task carrying
the raw URL (the embedding is a total function: no exception reaches the
caller). -/
theorem C9_planner_shape (inputs : List (String × PlanProbe)) (avail : Bool) :
    plan_downloads inputs false avail = inputs.map (fun p => { url := some p.1 })
    ∧ (plan_downloads inputs false avail).length = inputs.length
    ∧ (∀ t ∈ plan_downloads inputs false avail,
        t.pl_title = none ∧ t.pl_index = none ∧ t.pl_count = none ∧ t.entry_title = none
          ∧ t.pl_batch_index = none)
    ∧ (∀ u : String, ∀ rest : List (String × PlanProbe), ∀ batch : ℤ,
        plan_downloads_go true batch ((u, .err) :: rest) =
          { url := some u } :: plan_downloads_go true batch rest) := by
  have hgo : ∀ l : List (String × PlanProbe), ∀ batch : ℤ,
      plan_downloads_go false batch l = l.map (fun p => { url := some p.1 }) := by
    intro l
    induction l with
    | nil => intro batch; rfl
    | cons hd tl ih =>
      intro batch
      obtain ⟨u, pr⟩ := hd
      simp only [plan_downloads_go, List.map_cons]
      rw [ih batch]
      simp
  have h1 : plan_downloads inputs false avail = inputs.map (fun p => { url := some p.1 }) := by
    cases avail with
    | false => simp [plan_downloads]
    | true => simp [plan_downloads, hgo]
  refine ⟨h1, by rw [h1]; simp, ?_, ?_⟩
  · intro t ht
    rw [h1] at ht
    obtain ⟨p, _, hp⟩ := List.mem_map.mp ht
    rw [← hp]
    exact ⟨rfl, rfl, rfl, rfl, rfl⟩
  · intro u rest batch
    rfl

/-- C7 (amended): the fallback counter does not persist across the tasks of
one batch run — the worker builds a fresh `DownloadContext` per task, whose
counter starts at `1`, so every task that falls back to a synthetic name
uses counter `1` and gets the base name `"YouTube_Download_1"`; in
particular two fallback tasks of the same run receive identical synthetic
base names. -/
theorem C7_fallback_counter_amended (td mf rl : String) (pa lf : Bool)
    (fp : Option String) (br : Option ℤ) (e1 i1 e2 i2 : Option String)
    (h1 : (resolve_safe_title (worker_dl_ctx td mf pa rl fp lf br).fallback_counter e1 i1).2 ≠
      (worker_dl_ctx td mf pa rl fp lf br).fallback_counter)
    (h2 : (resolve_safe_title (worker_dl_ctx td mf pa rl fp lf br).fallback_counter e2 i2).2 ≠
      (worker_dl_ctx td mf pa rl fp lf br).fallback_counter) :
    (worker_dl_ctx td mf pa rl fp lf br).fallback_counter = 1
    ∧ (resolve_safe_title 1 e1 i1).1 = "YouTube_Download_1"
    ∧ (resolve_safe_title 1 e2 i2).1 = "YouTube_Download_1"
    ∧ (resolve_safe_title 1 e1 i1).1 = (resolve_safe_title 1 e2 i2).1 := by
  have key : ∀ e i : Option String,
      (resolve_safe_title 1 e i).2 ≠ 1 → (resolve_safe_title 1 e i).1 = "YouTube_Download_1" := by
    intro e i h
    simp only [resolve_safe_title] at h ⊢
    by_cases hs : (if pyTruthyStr (if pyTruthyStr e then e else i) then
        sanitize_filename ((if pyTruthyStr e then e else i).getD "") else "") = ""
    · rw [if_pos hs]
      decide
    · rw [if_neg hs] at h
      exact absurd rfl h
  have hc : (worker_dl_ctx td mf pa rl fp lf br).fallback_counter = 1 := rfl
  rw [hc] at h1 h2
  have k1 := key e1 i1 h1
  have k2 := key e2 i2 h2
  exact ⟨hc, k1, k2, k1.trans k2.symm⟩

/-- C7 witness: a task with no resolvable title and a task whose probed
title sanitizes to the empty string both fall back to the same synthetic
base name. -/
theorem C7_fallback_counter_amended_witness :
    (resolve_safe_title 1 none none).1 = "YouTube_Download_1"
    ∧ (resolve_safe_title 1 (some "") (some "???")).1 = "YouTube_Download_1" :=
  let h := C7_fallback_counter_amended "/tmp" "mkv" "Auto (Best)" false false none none
    none none (some "") (some "???") (by decide) (by decide)
  ⟨h.2.1, h.2.2.1⟩

/-- C7 counterexample: two tasks of the same run that both fall back: the
worker-built contexts of both tasks carry counter `1`, the later task's
counter is not strictly greater than the earlier one's, and the two
synthetic base names coincide instead of differing. -/
theorem C7_counterexample :
    (worker_dl_ctx "/tmp" "mkv" false "Auto (Best)" none false none).fallback_counter = 1
    ∧ ¬ ((worker_dl_ctx "/tmp" "mkv" false "Auto (Best)" none false none).fallback_counter >
        (worker_dl_ctx "/tmp" "mkv" false "Auto (Best)" none false none).fallback_counter)
    ∧ (resolve_safe_title
        (worker_dl_ctx "/tmp" "mkv" false "Auto (Best)" none false none).fallback_counter
        none none).1 =
      (resolve_safe_title
        (worker_dl_ctx "/tmp" "mkv" false "Auto (Best)" none false none).fallback_counter
        (some "") (some "???")).1 := by
  refine ⟨rfl, by decide, ?_⟩
  decide

/-- Helper: no loop iteration ever posts a `Done` event. -/
theorem done_not_in_iter_step (idx total : ℕ) (t : PlanTask) (env : WEnv) :
    Ev.done ∉ (iter_step idx total t env).1 := by
  by_cases hp : worker_private_detected t env.probe = true
  · simp [iter_step, hp, mapped_progress_events]
  · cases hr : env.run with
    | ok ps path => simp [iter_step, hp, hr, dl_events, mapped_progress_events]
    | cancelledMid ps => simp [iter_step, hp, hr, dl_events, mapped_progress_events]
    | failedMid ps m => simp [iter_step, hp, hr, dl_events, mapped_progress_events]

/-- Helper: the worker loop never posts a `Done` event. -/
theorem done_not_in_run_loop (total : ℕ) (cancel : ℕ → Bool)
    (tasks : List (PlanTask × WEnv)) (idx : ℕ) :
    Ev.done ∉ (run_loop total cancel idx tasks).1 := by
  induction tasks generalizing idx with
  | nil => simp [run_loop]
  | cons hd tl ih =>
    by_cases hc : cancel idx = true
    · simp [run_loop, hc]
    · have hni := done_not_in_iter_step idx total hd.1 hd.2
      rcases hstep : iter_step idx total hd.1 hd.2 with ⟨evs, ex⟩
      rw [hstep] at hni
      cases ex with
      | next =>
        simp only [run_loop, hc, if_false, hstep, Bool.false_eq_true, List.mem_append]
        rintro (h | h)
        · exact hni h
        · exact ih (idx + 1) h
      | raiseCancelled => simp only [run_loop, hc, if_false, hstep, Bool.false_eq_true]; exact hni
      | raiseFailed m => simp only [run_loop, hc, if_false, hstep, Bool.false_eq_true]; exact hni

/-- C8: every batch run, however it ends (completion, cancellation, or an
unhandled per-task error), posts exactly one `Done` event, and `Done` is the
last event of the run's trace. -/
theorem C8_done_exactly_once (tasks : List (PlanTask × WEnv)) (cancel : ℕ → Bool) :
    (download_worker tasks cancel).count Ev.done = 1
    ∧ (download_worker tasks cancel).getLast? = some Ev.done := by
  unfold download_worker
  constructor
  · simp only [List.count_append]
    have hpre : (if tasks.length ≠ 0 then
        [Ev.label "overall" (total_items_unknown_label tasks.length)] else []).count Ev.done = 0 := by
      split <;> simp
    rw [hpre]
    have hloop : (run_loop tasks.length cancel 1 tasks).1.count Ev.done = 0 :=
      List.count_eq_zero.mpr (done_not_in_run_loop _ _ _ _)
    rw [hloop]
    cases hex : (run_loop tasks.length cancel 1 tasks).2 <;> simp
  · rw [show ∀ a b c d : List Ev, a ++ b ++ c ++ d = (a ++ b ++ c) ++ d from
      fun a b c d => by simp [List.append_assoc]]
    cases hex : (run_loop tasks.length cancel 1 tasks).2 <;>
      simp [List.getLast?_concat]

/-- C2: behavior of the code at the spec's cancellation scenario — a 3-task
batch whose cancel flag becomes set after task 1 completes.  The run posts
exactly one `Status{"Cancelled"}`, no events for tasks 2-3, and ends in
`Done`; but because the `break` at src/app/ui.py line 334 falls through to
line 432, the run also posts `Status{"All done"}` after the `Cancelled`
status, on a run in which tasks 2-3 were never processed. -/
theorem C2_cancellation_code_behavior :
    download_worker
        [({ url := some "u1", entry_title := some "T1" }, ⟨.ok none, .ok [] "p1"⟩),
         ({ url := some "u2", entry_title := some "T2" }, ⟨.ok none, .ok [] "p2"⟩),
         ({ url := some "u3", entry_title := some "T3" }, ⟨.ok none, .ok [] "p3"⟩)]
        (fun n => decide (2 ≤ n)) =
      [Ev.label "overall" "Total items ? / 3",
       Ev.label "overall" "Total items 1 / 3",
       Ev.label "file" "YouTube Video 1 of 3: T1",
       Ev.label "current_item" "YouTube Video 1 of 3: T1",
       Ev.label "saved_to" "Saved to: p1",
       Ev.status "Saved to: p1",
       Ev.status "Cancelled",
       Ev.status "All done",
       Ev.done]
    ∧ (download_worker
        [({ url := some "u1", entry_title := some "T1" }, ⟨.ok none, .ok [] "p1"⟩),
         ({ url := some "u2", entry_title := some "T2" }, ⟨.ok none, .ok [] "p2"⟩),
         ({ url := some "u3", entry_title := some "T3" }, ⟨.ok none, .ok [] "p3"⟩)]
        (fun n => decide (2 ≤ n))).count (Ev.status "Cancelled") = 1
    ∧ Ev.status "All done" ∈ download_worker
        [({ url := some "u1", entry_title := some "T1" }, ⟨.ok none, .ok [] "p1"⟩),
         ({ url := some "u2", entry_title := some "T2" }, ⟨.ok none, .ok [] "p2"⟩),
         ({ url := some "u3", entry_title := some "T3" }, ⟨.ok none, .ok [] "p3"⟩)]
        (fun n => decide (2 ≤ n)) := by
  refine ⟨by decide, by decide, by decide⟩

/-- C3: a task detected as private (by title marker or by a probe failure
whose message contains "Private video") is skipped, not failed: the
iteration posts the skip status and an overall-progress event worth
`100 * idx / total`, and the loop continues with the next task; in the
spec's 2-task scenario with task 1 private, the full trace shows the skip,
overall progress `50` after it, task 2 executing normally, and the run
ending in `Status{"All done"}` then `Done`. -/
theorem C3_private_skip (idx total : ℕ) (t : PlanTask) (env : WEnv)
    (htot : 1 ≤ total)
    (hpriv : worker_private_detected t env.probe = true) :
    (iter_step idx total t env).2 = .next
    ∧ (iter_step idx total t env).1 =
        [Ev.label "overall" (total_items_label idx total),
         Ev.label "file" (file_label idx total t (worker_title t env.probe).1),
         Ev.label "current_item" (file_label idx total t (worker_title t env.probe).1),
         Ev.status (skip_status_text idx total (worker_title t env.probe).1),
         Ev.progress (100 * (idx : ℚ) / (total : ℚ)) ""]
    ∧ download_worker
        [({ url := some "u1" }, ⟨.error "ERROR: Private video", .ok [] "x"⟩),
         ({ url := some "u2", entry_title := some "T2" },
          ⟨.ok none, .ok [(100, "Downloading 100%")] "p2"⟩)]
        (fun _ => false) =
      [Ev.label "overall" "Total items ? / 2",
       Ev.label "overall" "Total items 1 / 2",
       Ev.label "file" "YouTube Video 1 of 2: ",
       Ev.label "current_item" "YouTube Video 1 of 2: ",
       Ev.status "Skipping item 1 / 2 - private video: Unknown",
       Ev.progress (overall_after_skip 1 2) "",
       Ev.label "overall" "Total items 2 / 2",
       Ev.label "file" "YouTube Video 2 of 2: T2",
       Ev.label "current_item" "YouTube Video 2 of 2: T2",
       Ev.progress (post_progress_overall 2 2 100) "Downloading 100%",
       Ev.label "saved_to" "Saved to: p2",
       Ev.status "Saved to: p2",
       Ev.status "All done",
       Ev.done]
    ∧ overall_after_skip 1 2 = 50
    ∧ post_progress_overall 2 2 100 = 100 := by
  have htQ : (1 : ℚ) ≤ (total : ℚ) := by exact_mod_cast htot
  have hval : overall_after_skip idx total = 100 * (idx : ℚ) / (total : ℚ) := by
    unfold overall_after_skip
    rw [max_eq_right htQ]
    ring
  refine ⟨?_, ?_, by rfl, by norm_num [overall_after_skip],
    by norm_num [post_progress_overall]⟩
  · simp [iter_step, hpriv]
  · simp [iter_step, hpriv, hval]

/-- C3 witness: a 2-item batch whose first task probes private: the
iteration for it exits with `next`, so the loop moves on to task 2. -/
theorem C3_private_skip_witness :
    (iter_step 1 2 { url := some "u1" } ⟨.error "ERROR: Private video", .ok [] "x"⟩).2 =
      TaskExit.next :=
  (C3_private_skip 1 2 { url := some "u1" } ⟨.error "ERROR: Private video", .ok [] "x"⟩
    (by norm_num) (by decide)).1

/-- C9 witness: a one-URL plan with expansion off yields a task with no
playlist metadata. -/
theorem C9_planner_shape_witness :
    ({ url := some "http://a" } : PlanTask).pl_title = none
    ∧ ({ url := some "http://a" } : PlanTask).pl_index = none
    ∧ ({ url := some "http://a" } : PlanTask).pl_count = none
    ∧ ({ url := some "http://a" } : PlanTask).entry_title = none
    ∧ ({ url := some "http://a" } : PlanTask).pl_batch_index = none :=
  (C9_planner_shape [("http://a", .err)] true).2.2.1 { url := some "http://a" } (by decide)
